import Mathlib

/-!
# V4l2Capturer: a shallow embedding of `src/V4l2Capturer.c`

The capture session talks to the kernel through `open`, `ioctl`, `select`,
`mmap`, `munmap` and `close`.  The embedding makes that conversation explicit:

* a `World` carries the replies the kernel will give (`script`, consumed one
  per system call, in order), the log of what the program did (`trace`) and the
  current value of `errno`;
* every C function becomes a function `World → Outcome α × World`;
* the session object `V4l2Capturer` is passed and returned as a value, a `NULL`
  handle being `none`; the block that `malloc` hands out is an argument of
  `v4l2CapturerOpen`, and a freed session is one that is no longer returned.

`LOG` is `printf` unless the build defines it otherwise. What it prints goes
to standard output, not to the device, so it is not part of the log; but a
`printf` may change `errno`, and the program reads `errno` after it. The
`World` therefore also carries what each `LOG` statement in turn does to
`errno` (`logs`).

Quantifying over all scripts quantifies over all device behaviours; a script
that ends early describes a run up to that point.
-/

namespace V4l2

/-! ## Constants (errno.h, fcntl.h, sys/mman.h, linux/videodev2.h) -/

def EPERM : Int := 1
def EINTR : Int := 4
def EIO : Int := 5
def EBADF : Int := 9
def EAGAIN : Int := 11
def ENOMEM : Int := 12
def EINVAL : Int := 22

def O_RDWR : Nat := 2
def O_NONBLOCK : Nat := 2048
def PROT_READ : Nat := 1
def PROT_WRITE : Nat := 2
def MAP_SHARED : Nat := 1
/-- The value `(void *) -1` that `mmap` returns on failure. -/
def MAP_FAILED : Int := -1

def V4L2_CAP_VIDEO_CAPTURE : Nat := 0x00000001
def V4L2_CAP_STREAMING : Nat := 0x04000000
def V4L2_BUF_TYPE_VIDEO_CAPTURE : Nat := 1
def V4L2_MEMORY_MMAP : Nat := 1
def V4L2_FIELD_INTERLACED : Nat := 4
def V4L2_PIX_FMT_H264 : Nat := 0x34363248
def V4L2_PIX_FMT_YUYV : Nat := 0x56595559
def V4L2_CID_MPEG_VIDEO_BITRATE : Nat := 0x009909cf

/-- Enumerator `V4L2_CAP_FMT_H264 = 0` of `V4l2CapturerFormat`. -/
def V4L2_CAP_FMT_H264 : Int := 0
/-- Enumerator `V4L2_CAP_FMT_YUYV` of `V4l2CapturerFormat`. -/
def V4L2_CAP_FMT_YUYV : Int := 1

/-- The macro `V4L2_CAPTURER_BUF_COUNT`. -/
abbrev V4L2_CAPTURER_BUF_COUNT : Nat := 2

/-- Conversion of an unsigned value to a 32 bit signed field (`__s32`). -/
def toS32 (n : Nat) : Int :=
  if n % 2 ^ 32 < 2 ^ 31 then (n % 2 ^ 32 : Nat) else ((n % 2 ^ 32 : Nat) : Int) - 2 ^ 32

/-! ## Kernel interface -/

/-- The ioctl request codes the program uses. -/
inductive Request where
  | VIDIOC_QUERYCAP
  | VIDIOC_S_FMT
  | VIDIOC_S_CTRL
  | VIDIOC_REQBUFS
  | VIDIOC_QUERYBUF
  | VIDIOC_QBUF
  | VIDIOC_DQBUF
  | VIDIOC_STREAMON
  | VIDIOC_STREAMOFF
  deriving DecidableEq, Repr

/-- The fields of `struct v4l2_buffer` the program sets or reads
(`offset` is `m.offset`); the others are zero-initialised and never read. -/
structure V4l2Buffer where
  index : Nat
  type : Nat
  memory : Nat
  bytesused : Nat
  length : Nat
  offset : Nat
  deriving DecidableEq, Repr

/-- The object an ioctl argument points to. -/
inductive Arg where
  | capability (capabilities : Nat)
  | format (type width height pixelformat field : Nat)
  | control (id : Nat) (value : Int)
  | requestbuffers (count type memory : Nat)
  | buffer (b : V4l2Buffer)
  | bufType (type : Nat)
  deriving DecidableEq, Repr

/-- Field `capabilities` of a `struct v4l2_capability` argument. -/
def Arg.capabilities : Arg → Nat
  | .capability c => c
  | _ => 0

/-- Field `count` of a `struct v4l2_requestbuffers` argument. -/
def Arg.count : Arg → Nat
  | .requestbuffers c _ _ => c
  | _ => 0

/-- The `struct v4l2_buffer` an argument points to. -/
def Arg.buf : Arg → V4l2Buffer
  | .buffer b => b
  | _ => ⟨0, 0, 0, 0, 0, 0⟩

/-- A system call with the arguments the program passes. -/
inductive Call where
  | sysOpen (path : String) (flags : Nat)
  | sysIoctl (fd : Int) (request : Request) (arg : Arg)
  | sysSelect (nfds : Int) (readfds : List Int) (tv_sec : Int)
  | sysMmap (length : Nat) (prot flags : Nat) (fd : Int) (offset : Nat)
  | sysMunmap (addr : Int) (length : Nat)
  | sysClose (fd : Int)
  deriving DecidableEq, Repr

/-- What the kernel answers to one system call: the return value (for `mmap`
the address, for `open` the descriptor), the value of `errno` after the call,
and the values it stores through the argument pointer of an ioctl. -/
structure Reply where
  ret : Int
  errno : Int
  capabilities : Nat
  count : Nat
  index : Nat
  bytesused : Nat
  length : Nat
  offset : Nat
  deriving DecidableEq, Repr

/-- One entry of the log: a system call with its reply, or one invocation of
the frame callback `cb` with its two arguments. -/
inductive Event where
  | sys (c : Call) (r : Reply)
  | onFrame (cb : Nat) (data : Int) (size : Nat)
  deriving DecidableEq, Repr

/-- The environment of a run: the replies to the system calls still to
come, the log so far, the current `errno`, and for each `LOG` statement still
to come what it does to `errno` (`none`: leaves it as it is, `some e`: leaves
`e` there, as when `printf` fails). -/
structure World where
  script : List Reply
  trace : List Event
  errno : Int
  logs : List (Option Int)
  deriving DecidableEq, Repr

/-- How far a call into the library gets: it returns `a`, or the script has
no reply left for the system call it is blocked in. -/
inductive Outcome (α : Type) where
  | ret (a : α)
  | pending
  deriving DecidableEq, Repr

/-- Computations against the environment. -/
def Exec (α : Type) : Type := World → Outcome α × World

/-- Sequencing: a computation that does not return stops the whole call. -/
def Exec.bind {α β : Type} (m : Exec α) (f : α → Exec β) : Exec β := fun w =>
  match m w with
  | (.ret a, w1) => f a w1
  | (.pending, w1) => (.pending, w1)

/-- Return without touching the environment. -/
def Exec.pure {α : Type} (a : α) : Exec α := fun w => (.ret a, w)

instance : Monad Exec where
  pure := Exec.pure
  bind := Exec.bind

/-- Issue one system call: take the next reply of the script, log the call
with it and set `errno`. -/
def syscall (c : Call) : Exec Reply := fun w =>
  match w.script with
  | [] => (.pending, w)
  | r :: rest =>
      (.ret r, { w with script := rest, trace := w.trace ++ [Event.sys c r], errno := r.errno })

/-- The value of `errno` after a `LOG` statement that is entered with
`errno`, for the given remaining `logs`. When `logs` is used up the statement
leaves `errno` as it is. -/
def afterLog (logs : List (Option Int)) (errno : Int) : Int :=
  match logs with
  | some e :: _ => e
  | _ => errno

/-- One `LOG(...)` statement, arguments included (some pass `errno` and
`strerror(errno)`): it may change `errno`. -/
def LOG : Exec Unit := fun w =>
  (.ret (), { w with errno := afterLog w.logs w.errno, logs := w.logs.drop 1 })

/-- The current value of `errno`. -/
def getErrno : Exec Int := fun w => (.ret w.errno, w)

/-- Invoke the frame callback. -/
def callOnFrame (cb : Nat) (data : Int) (size : Nat) : Exec Unit := fun w =>
  (.ret (), { w with trace := w.trace ++ [Event.onFrame cb data size] })

/-- What a successful ioctl stores through its argument pointer. A request
that fails leaves the argument as it was. -/
def copyOut (request : Request) (arg : Arg) (r : Reply) : Arg :=
  if r.ret ≠ 0 then arg else
  match request, arg with
  | .VIDIOC_QUERYCAP, .capability _ => .capability r.capabilities
  | .VIDIOC_REQBUFS, .requestbuffers _ t m => .requestbuffers r.count t m
  | .VIDIOC_QUERYBUF, .buffer b => .buffer { b with length := r.length, offset := r.offset }
  | .VIDIOC_DQBUF, .buffer b =>
      .buffer { b with index := r.index, bytesused := r.bytesused, length := r.length,
                       offset := r.offset }
  | _, a => a

/-- The loop condition of `xioctl`: `-EPERM == res && EINTR == errno`. -/
def Reply.interrupted (r : Reply) : Bool :=
  r.ret == -EPERM && r.errno == EINTR

/-! ## The session object -/

/-- The struct `V4l2CapturerBuffer`: a mapped region. -/
structure V4l2CapturerBuffer where
  start : Int
  length : Nat
  deriving DecidableEq, Repr

/-- The struct `V4l2Capturer`. `onFrame` is `none` for a null function
pointer and `some cb` for the callback `cb`; `fds` lists the descriptors that
are members of the `fd_set`.

The member `buffers[V4L2_CAPTURER_BUF_COUNT]` is the last one of the struct.
C does not check the index of `buffers[i]`: with `i` at or beyond
`V4L2_CAPTURER_BUF_COUNT` the access lands in the memory that follows the
object. `buffers i` for `i < V4L2_CAPTURER_BUF_COUNT` is an element of the
array; for larger `i` it is that memory, laid out as a further element, so
that an access outside the array shows in the session value. -/
structure V4l2Capturer where
  devName : String
  fd : Int
  fds : List Int
  onFrame : Option Nat
  buffers : Nat → V4l2CapturerBuffer

/-- The assignment `capturer->buffers[i].start = p`. -/
def V4l2Capturer.setStart (c : V4l2Capturer) (i : Nat) (p : Int) : V4l2Capturer :=
  { c with buffers := Function.update c.buffers i { c.buffers i with start := p } }

/-- The assignment `capturer->buffers[i].length = n`. -/
def V4l2Capturer.setLength (c : V4l2Capturer) (i : Nat) (n : Nat) : V4l2Capturer :=
  { c with buffers := Function.update c.buffers i { c.buffers i with length := n } }

/-! ## The program -/

/-- The body of `xioctl`, by recursion on the replies still to come:
`do { res = ioctl(fd, request, arg); } while (-EPERM == res && EINTR == errno);`
Every pass issues the ioctl anew, with the same argument pointer. -/
def xioctlLoop (fd : Int) (request : Request) (logs : List (Option Int)) :
    Arg → List Reply → List Event → Int → Outcome (Int × Arg) × World
  | _, [], tr, e => (.pending, ⟨[], tr, e, logs⟩)
  | arg, r :: rest, tr, _ =>
      if r.interrupted then
        xioctlLoop fd request logs (copyOut request arg r) rest
          (tr ++ [Event.sys (.sysIoctl fd request arg) r]) r.errno
      else
        (.ret (r.ret, copyOut request arg r),
          ⟨rest, tr ++ [Event.sys (.sysIoctl fd request arg) r], r.errno, logs⟩)

/-- The function `xioctl`: the result of the ioctl and the argument object
after it. -/
def xioctl (fd : Int) (request : Request) (arg : Arg) : Exec (Int × Arg) := fun w =>
  xioctlLoop fd request w.logs arg w.script w.trace w.errno

/-- The statements `LOG(...); return -errno;`. -/
def logReturnNegErrno : Exec Int := do
  LOG
  let e ← getErrno
  pure (-e)

/-- The function `isValidCaptureDevice`. -/
def isValidCaptureDevice (fd : Int) : Exec Bool := do
  let (res, cap) ← xioctl fd .VIDIOC_QUERYCAP (.capability 0)
  if res ≠ 0 then do
    LOG
    pure false
  else if cap.capabilities &&& V4L2_CAP_VIDEO_CAPTURE = 0 then do
    LOG
    pure false
  else if cap.capabilities &&& V4L2_CAP_STREAMING = 0 then do
    LOG
    pure false
  else pure true

/-- The function `v4l2CapturerAsyncGetFrame`. -/
def v4l2CapturerAsyncGetFrame (handle : Option V4l2Capturer) : Exec Int :=
  match handle with
  | none => pure (-EINVAL)
  | some capturer => do
      let (res, buf) ← xioctl capturer.fd .VIDIOC_DQBUF
        (.buffer ⟨0, V4L2_BUF_TYPE_VIDEO_CAPTURE, V4L2_MEMORY_MMAP, 0, 0, 0⟩)
      if res ≠ 0 then logReturnNegErrno
      else do
        match capturer.onFrame with
          | none => pure ()
          | some cb =>
              callOnFrame cb (capturer.buffers buf.buf.index).start buf.buf.bytesused
        let (res2, _) ← xioctl capturer.fd .VIDIOC_QBUF buf
        if res2 ≠ 0 then logReturnNegErrno
        else pure 0

/-- The function `v4l2CapturerSelectFD`: the status and the session after the
call. `FD_ZERO` and `FD_SET` leave `fd` as the only member of the set; `select`
keeps it a member unless the wait timed out. -/
def v4l2CapturerSelectFD (handle : Option V4l2Capturer) (timeoutSec : Int) :
    Exec (Int × Option V4l2Capturer) :=
  match handle with
  | none => pure (-EINVAL, none)
  | some capturer => do
      let res ← syscall (.sysSelect (capturer.fd + 1) [capturer.fd] timeoutSec)
      let capturer1 := { capturer with fds := if res.ret = 0 then [] else [capturer.fd] }
      if res.ret = -EPERM then do
        let e ← getErrno
        if EINTR = e then pure (-EAGAIN, some capturer1)
        else do
          LOG
          let e1 ← getErrno
          pure (-e1, some capturer1)
      else if res.ret = 0 then do
        LOG
        pure (-EAGAIN, some capturer1)
      else pure (0, some capturer1)

/-- The function `v4l2CapturerOpen`. `block` is what `malloc` returns: `none`
when it fails, otherwise the new object with the indeterminate contents it
happens to have. The result is the handle (`none` for `NULL`). -/
def v4l2CapturerOpen (devName : Option String) (block : Option V4l2Capturer) :
    Exec (Option V4l2Capturer) :=
  match devName with
  | none => pure none
  | some name =>
      match block with
      | none => pure none
      | some blk => do
          let r ← syscall (.sysOpen name (O_RDWR ||| O_NONBLOCK))
          let capturer := { blk with devName := name, fd := r.ret }
          if capturer.fd = -EPERM then do
            LOG
            pure none
          else do
            let valid ← isValidCaptureDevice capturer.fd
            if !valid then do
              LOG
              pure none
            else do
              LOG
              pure (some capturer)

/-- The loop `for (uint32_t i = 0; i < req.count; ++i)` of
`v4l2CapturerConfig`, entered at index `i` with `todo = req.count - i` passes
left. The result is the status the function returns and the session. -/
def configLoop (capturer : V4l2Capturer) (i : Nat) :
    Nat → Exec (Int × V4l2Capturer)
  | 0 => pure (0, capturer)
  | todo + 1 => do
      let (res, buf) ← xioctl capturer.fd .VIDIOC_QUERYBUF
        (.buffer ⟨i, V4L2_BUF_TYPE_VIDEO_CAPTURE, V4L2_MEMORY_MMAP, 0, 0, 0⟩)
      if res ≠ 0 then do
        let e ← getErrno
        pure (-e, capturer)
      else do
        let p ← syscall (.sysMmap buf.buf.length (PROT_READ ||| PROT_WRITE) MAP_SHARED
          capturer.fd buf.buf.offset)
        let capturer1 := capturer.setStart i p.ret
        if MAP_FAILED = p.ret then do
          LOG
          let e ← getErrno
          pure (-e, capturer1)
        else
          configLoop (capturer1.setLength i buf.buf.length) (i + 1) todo

/-- The function `v4l2CapturerConfig`: the status and the session after the
call. -/
def v4l2CapturerConfig (handle : Option V4l2Capturer) (width height : Nat) (format : Int)
    (bitrate : Nat) : Exec (Int × Option V4l2Capturer) :=
  match handle with
  | none => pure (-EINVAL, none)
  | some capturer =>
      let pixelformat : Option Nat :=
        if format = V4L2_CAP_FMT_H264 then some V4L2_PIX_FMT_H264
        else if format = V4L2_CAP_FMT_YUYV then some V4L2_PIX_FMT_YUYV
        else none
      match pixelformat with
      | none => pure (-EINVAL, some capturer)
      | some pix => do
          let (res, _) ← xioctl capturer.fd .VIDIOC_S_FMT
            (.format V4L2_BUF_TYPE_VIDEO_CAPTURE width height pix V4L2_FIELD_INTERLACED)
          if res ≠ 0 then do
            LOG
            let e ← getErrno
            pure (-e, some capturer)
          else do
            let (res1, _) ← xioctl capturer.fd .VIDIOC_S_CTRL
              (.control V4L2_CID_MPEG_VIDEO_BITRATE (toS32 bitrate))
            if res1 ≠ 0 then do
              LOG
              let e ← getErrno
              pure (-e, some capturer)
            else do
              let (res2, req) ← xioctl capturer.fd .VIDIOC_REQBUFS
                (.requestbuffers V4L2_CAPTURER_BUF_COUNT V4L2_BUF_TYPE_VIDEO_CAPTURE
                  V4L2_MEMORY_MMAP)
              if res2 ≠ 0 then do
                LOG
                let e ← getErrno
                pure (-e, some capturer)
              else if req.count < V4L2_CAPTURER_BUF_COUNT then do
                LOG
                pure (-ENOMEM, some capturer)
              else do
                let (status, capturer1) ← configLoop capturer 0 req.count
                pure (status, some capturer1)

/-- The function `v4l2CapturerSetOnFrameCallback`. -/
def v4l2CapturerSetOnFrameCallback (handle : Option V4l2Capturer) (onFrame : Option Nat) :
    Exec (Int × Option V4l2Capturer) :=
  match handle with
  | none => pure (-EINVAL, none)
  | some capturer => pure (0, some { capturer with onFrame := onFrame })

/-- The loop `for (uint32_t i = 0; i < V4L2_CAPTURER_BUF_COUNT; ++i)` of
`v4l2CapturerStartStreaming`, entered at index `i` with `todo` passes left:
`some status` when the function returns from inside the loop, `none` when the
loop runs to its end. -/
def startLoop (fd : Int) (i : Nat) : Nat → Exec (Option Int)
  | 0 => pure none
  | todo + 1 => do
      let (res, _) ← xioctl fd .VIDIOC_QBUF
        (.buffer ⟨i, V4L2_BUF_TYPE_VIDEO_CAPTURE, V4L2_MEMORY_MMAP, 0, 0, 0⟩)
      if res ≠ 0 then do
        LOG
        let e ← getErrno
        pure (some (-e))
      else startLoop fd (i + 1) todo

/-- The function `v4l2CapturerStartStreaming`. -/
def v4l2CapturerStartStreaming (handle : Option V4l2Capturer) : Exec Int :=
  match handle with
  | none => pure (-EINVAL)
  | some capturer => do
      let early ← startLoop capturer.fd 0 V4L2_CAPTURER_BUF_COUNT
      match early with
      | some status => pure status
      | none => do
          let (res, _) ← xioctl capturer.fd .VIDIOC_STREAMON (.bufType V4L2_BUF_TYPE_VIDEO_CAPTURE)
          if res ≠ 0 then logReturnNegErrno
          else do
            LOG
            pure 0

/-- The function `v4l2CapturerStopStreaming`. -/
def v4l2CapturerStopStreaming (handle : Option V4l2Capturer) : Exec Int :=
  match handle with
  | none => pure (-EINVAL)
  | some capturer => do
      let (res, _) ← xioctl capturer.fd .VIDIOC_STREAMOFF (.bufType V4L2_BUF_TYPE_VIDEO_CAPTURE)
      if res ≠ 0 then logReturnNegErrno
      else do
        LOG
        pure 0

/-- The function `v4l2CapturerRun`: the status and the session after the
call. -/
def v4l2CapturerRun (handle : Option V4l2Capturer) (timeoutSec : Int) :
    Exec (Int × Option V4l2Capturer) := do
  let (res, handle1) ← v4l2CapturerSelectFD handle timeoutSec
  if res ≠ 0 then do
    LOG
    pure (res, handle1)
  else do
    let status ← v4l2CapturerAsyncGetFrame handle1
    pure (status, handle1)

/-- The call `memcpy(dst, src, n)` where `dst` is the caller's memory from
the destination address on and `mem` reads process memory at an address. -/
def memcpy (mem : Int → Nat) (dst : List Nat) (src : Int) (n : Nat) : List Nat :=
  (List.range n).map (fun k => mem (src + k)) ++ dst.drop n

/-- What `v4l2CapturerSyncGetFrame` leaves behind: the status, the caller's
buffer, the caller's `*frameSize` and the session. -/
structure SyncResult where
  status : Int
  frameDataBuffer : Option (List Nat)
  frameSize : Option Nat
  capturer : Option V4l2Capturer

/-- The function `v4l2CapturerSyncGetFrame`. A null `frameDataBuffer` or
`frameSize` is `none`; otherwise the argument is the content behind the
pointer. -/
def v4l2CapturerSyncGetFrame (mem : Int → Nat) (handle : Option V4l2Capturer) (timeoutSec : Int)
    (frameDataBuffer : Option (List Nat)) (frameDataBufferSize : Nat)
    (frameSize : Option Nat) : Exec SyncResult :=
  match frameDataBuffer with
  | none => pure ⟨-EINVAL, frameDataBuffer, frameSize, handle⟩
  | some dst =>
  match frameSize with
  | none => pure ⟨-EINVAL, frameDataBuffer, frameSize, handle⟩
  | some size =>
  match handle with
  | none => pure ⟨-EINVAL, frameDataBuffer, frameSize, handle⟩
  | some capturer0 => do
      let (res, handle1) ← v4l2CapturerSelectFD (some capturer0) timeoutSec
      let capturer := handle1.getD capturer0
      if res ≠ 0 then do
        LOG
        pure ⟨res, some dst, some size, some capturer⟩
      else do
        let (res1, buf) ← xioctl capturer.fd .VIDIOC_DQBUF
          (.buffer ⟨0, V4L2_BUF_TYPE_VIDEO_CAPTURE, V4L2_MEMORY_MMAP, 0, 0, 0⟩)
        if res1 ≠ 0 then do
          LOG
          let e ← getErrno
          pure ⟨-e, some dst, some size, some capturer⟩
        else do
          let (res2, dst1, size1) : Int × List Nat × Nat :=
            if buf.buf.bytesused > frameDataBufferSize then (-ENOMEM, dst, size)
            else
              (0, memcpy mem dst (capturer.buffers buf.buf.index).start buf.buf.bytesused,
                buf.buf.bytesused)
          let (res3, _) ← xioctl capturer.fd .VIDIOC_QBUF buf
          if res3 ≠ 0 then do
            LOG
            let e ← getErrno
            pure ⟨-e, some dst1, some size1, some capturer⟩
          else pure ⟨res2, some dst1, some size1, some capturer⟩

/-- The log entries of one request that is issued until it is no longer
interrupted: `ints` are the replies to the interrupted attempts, `r` is the
reply that ends the loop of `xioctl`. -/
def tries (c : Call) (ints : List Reply) (r : Reply) : List Event :=
  (ints ++ [r]).map (Event.sys c)

/-- The zero-initialised `struct v4l2_buffer` with `.type` and `.memory` set
that the capture functions pass to `VIDIOC_DQBUF`. -/
def emptyBuffer : V4l2Buffer :=
  ⟨0, V4L2_BUF_TYPE_VIDEO_CAPTURE, V4L2_MEMORY_MMAP, 0, 0, 0⟩

/-- The `struct v4l2_buffer` after a `VIDIOC_DQBUF` that `r` answered. -/
def dequeued (r : Reply) : V4l2Buffer :=
  { emptyBuffer with index := r.index, bytesused := r.bytesused, length := r.length,
                     offset := r.offset }

/-- The session after the readiness wait that `sel` answered. -/
def waited (c : V4l2Capturer) (sel : Reply) : V4l2Capturer :=
  { c with fds := if sel.ret = 0 then [] else [c.fd] }

/-- The value of `errno` a system call left. -/
def Event.errno : Event → Int
  | .sys _ r => r.errno
  | .onFrame _ _ _ => 0

/-- The `LOG` statements never leave `errno` zero: no library function sets
`errno` to zero. -/
def KeepsErrnoSet (logs : List (Option Int)) : Prop :=
  (some 0 : Option Int) ∉ logs

/-- A reply reporting success with no payload. -/
def replyOk : Reply := ⟨0, 0, 0, 0, 0, 0, 0, 0⟩

/-- A reply reporting failure with the given `errno`. -/
def replyFail (errno : Int) : Reply := { replyOk with ret := -1, errno := errno }

/-- The reply of `select` when one descriptor is readable. -/
def replyReady : Reply := { replyOk with ret := 1 }

/-- The reply of a `VIDIOC_DQBUF` that hands out buffer `index` holding
`bytesused` bytes. -/
def replyFrame (index bytesused : Nat) : Reply :=
  { replyOk with index := index, bytesused := bytesused }

/-- A configured session on descriptor 3 with callback 1 and two mapped
regions of 8192 bytes. -/
def sampleSession : V4l2Capturer :=
  ⟨"/dev/video0", 3, [], some 1, fun i => ⟨4096 + 8192 * i, 8192⟩⟩

/-- Process memory in which every byte is zero. -/
def zeroMem : Int → Nat := fun _ => 0

/-- The reply of an `open` that yields descriptor `fd`, or of an `mmap` that
yields address `fd`. -/
def replyValue (fd : Int) : Reply := { replyOk with ret := fd }

/-- The reply of a `VIDIOC_QUERYCAP` reporting `capabilities`. -/
def replyCaps (capabilities : Nat) : Reply := { replyOk with capabilities := capabilities }

/-- The reply of a `VIDIOC_REQBUFS` granting `count` buffers. -/
def replyCount (count : Nat) : Reply := { replyOk with count := count }

/-- The reply of a `VIDIOC_QUERYBUF` reporting `length` and `offset`. -/
def replyPlacement (length offset : Nat) : Reply :=
  { replyOk with length := length, offset := offset }

/-- The session `sampleSession` after a `v4l2CapturerConfig` whose mapping
loop made three passes: slots 0, 1 and 2 have been assigned. -/
def overrunSession : V4l2Capturer :=
  (((((sampleSession.setStart 0 4096).setLength 0 8192).setStart 1 12288).setLength 1
    8192).setStart 2 40960).setLength 2 4096

/-- A block fresh from `malloc` that happens to be zero-filled. -/
def freshBlock : V4l2Capturer := ⟨"", 0, [], none, fun _ => ⟨0, 0⟩⟩

/-- The session `v4l2CapturerOpen` makes of `freshBlock` when `open` yields
descriptor 3: only `devName` and `fd` have been assigned. -/
def openedSession : V4l2Capturer := { freshBlock with devName := "/dev/video0", fd := 3 }

/-! ## Basic facts about the embedding -/

theorem bind_apply {α β : Type} (m : Exec α) (f : α → Exec β) (w : World) :
    (m >>= f) w = Exec.bind m f w := rfl

theorem pure_apply {α : Type} (a : α) (w : World) :
    (pure a : Exec α) w = (.ret a, w) := rfl

theorem copyOut_interrupted (request : Request) (arg : Arg) (r : Reply)
    (h : r.interrupted = true) : copyOut request arg r = arg := by
  have h1 : r.ret = -1 := by
    simp [Reply.interrupted, EPERM] at h
    exact h.1
  simp [copyOut, h1]

theorem not_interrupted_of_ret_zero (r : Reply) (h : r.ret = 0) : r.interrupted = false := by
  simp [Reply.interrupted, h, EPERM]

/-- A `LOG` statement that keeps `errno` set leaves a nonzero `errno` nonzero. -/
theorem afterLog_ne_zero (logs : List (Option Int)) (h : KeepsErrnoSet logs) (e : Int)
    (he : e ≠ 0) : afterLog logs e ≠ 0 := by
  unfold afterLog
  split
  · rename_i e1 more
    intro h0
    apply h
    rw [h0]
    exact List.mem_cons_self _ _
  · exact he

/-- A request whose first non-interrupted reply is `r`: `xioctl` consumes the
interrupted replies and `r`, logs one attempt per reply, all with the same
argument, and returns the result of the last attempt. -/
theorem xioctl_tries (fd : Int) (request : Request) (arg : Arg) (ints : List Reply) (r : Reply)
    (rest : List Reply) (tr : List Event) (e : Int) (logs : List (Option Int))
    (hI : ∀ x ∈ ints, x.interrupted = true) (hr : r.interrupted = false) :
    xioctl fd request arg ⟨ints ++ r :: rest, tr, e, logs⟩ =
      (.ret (r.ret, copyOut request arg r),
        ⟨rest, tr ++ tries (.sysIoctl fd request arg) ints r, r.errno, logs⟩) := by
  unfold xioctl
  simp only
  induction ints generalizing tr e with
  | nil => simp [xioctlLoop, hr, tries]
  | cons x xs ih =>
      have hx : x.interrupted = true := hI x (List.mem_cons_self _ _)
      have hxs : ∀ y ∈ xs, y.interrupted = true := fun y hy => hI y (List.mem_cons_of_mem _ hy)
      simp only [List.cons_append, xioctlLoop, hx, if_true, copyOut_interrupted _ _ _ hx]
      have h2 := ih (tr ++ [Event.sys (Call.sysIoctl fd request arg) x]) x.errno hxs
      simpa [tries] using h2

/-- The wait that ends by timeout (`select` returns 0) or by a signal
(`select` returns -1 with `errno = EINTR`): `v4l2CapturerRun` and
`v4l2CapturerSyncGetFrame` both return `-EAGAIN`, the only system call they
have made is `select` (no `VIDIOC_DQBUF`, no `VIDIOC_QBUF`, no callback), and
the caller's buffer and `*frameSize` are as before. -/
theorem wait_timeout_or_interrupt (mem : Int → Nat) (c : V4l2Capturer) (timeoutSec : Int)
    (dst : List Nat) (frameDataBufferSize size : Nat)
    (sel : Reply) (rest : List Reply) (tr : List Event) (e : Int) (logs : List (Option Int))
    (hsel : sel.ret = 0 ∨ (sel.ret = -1 ∧ sel.errno = EINTR)) :
    ∃ w1 : World,
      w1.script = rest ∧
      w1.trace = tr ++ [Event.sys (.sysSelect (c.fd + 1) [c.fd] timeoutSec) sel] ∧
      v4l2CapturerRun (some c) timeoutSec ⟨sel :: rest, tr, e, logs⟩ =
        (.ret (-EAGAIN, some (waited c sel)), w1) ∧
      v4l2CapturerSyncGetFrame mem (some c) timeoutSec (some dst) frameDataBufferSize (some size)
          ⟨sel :: rest, tr, e, logs⟩ =
        (.ret ⟨-EAGAIN, some dst, some size, some (waited c sel)⟩, w1) := by
  rcases hsel with h0 | ⟨h1, hi⟩
  · refine ⟨⟨rest, tr ++ [Event.sys (.sysSelect (c.fd + 1) [c.fd] timeoutSec) sel],
      afterLog (logs.drop 1) (afterLog logs sel.errno), (logs.drop 1).drop 1⟩, rfl, rfl, ?_, ?_⟩
    · simp [v4l2CapturerRun, v4l2CapturerSelectFD, bind_apply, Exec.bind, syscall, pure_apply,
        h0, EPERM, EAGAIN, waited, LOG]
    · simp [v4l2CapturerSyncGetFrame, v4l2CapturerSelectFD, bind_apply, Exec.bind, syscall,
        pure_apply, h0, EPERM, EAGAIN, waited, LOG]
  · refine ⟨⟨rest, tr ++ [Event.sys (.sysSelect (c.fd + 1) [c.fd] timeoutSec) sel],
      afterLog logs sel.errno, logs.drop 1⟩, rfl, rfl, ?_, ?_⟩
    · simp [v4l2CapturerRun, v4l2CapturerSelectFD, bind_apply, Exec.bind, syscall, pure_apply,
        h1, hi, EPERM, EAGAIN, waited, getErrno, LOG]
    · simp [v4l2CapturerSyncGetFrame, v4l2CapturerSelectFD, bind_apply, Exec.bind, syscall,
        pure_apply, h1, hi, EPERM, EAGAIN, waited, getErrno, LOG]

/-- C5, evaluated on a `select` that fails with `errno = EIO` while the
`printf` of `LOG("Select failed\n")` fails too: `v4l2CapturerRun` and
`v4l2CapturerSyncGetFrame` return the negation of the `errno` that `printf`
left, not of the one `select` left. With standard output closed (`EBADF`)
the status is `-EBADF`; with a full non-blocking standard output (`EAGAIN`)
the status of this hard failure is the retryable `-EAGAIN`. -/
theorem select_failure_status_follows_printf :
    v4l2CapturerRun (some sampleSession) 2 ⟨[replyFail EIO], [], 0, [some EBADF]⟩ =
      (.ret (-EBADF, some (waited sampleSession (replyFail EIO))),
        ⟨[], [Event.sys (.sysSelect 4 [3] 2) (replyFail EIO)], EBADF, []⟩) ∧
    v4l2CapturerSyncGetFrame zeroMem (some sampleSession) 2 (some [7, 7, 7]) 3 (some 0)
        ⟨[replyFail EIO], [], 0, [some EBADF]⟩ =
      (.ret ⟨-EBADF, some [7, 7, 7], some 0, some (waited sampleSession (replyFail EIO))⟩,
        ⟨[], [Event.sys (.sysSelect 4 [3] 2) (replyFail EIO)], EBADF, []⟩) ∧
    v4l2CapturerRun (some sampleSession) 2 ⟨[replyFail EIO], [], 0, [some EAGAIN]⟩ =
      (.ret (-EAGAIN, some (waited sampleSession (replyFail EIO))),
        ⟨[], [Event.sys (.sysSelect 4 [3] 2) (replyFail EIO)], EAGAIN, []⟩) ∧
    (replyFail EIO).errno ≠ EAGAIN ∧ (replyFail EIO).errno ≠ EBADF := by
  refine ⟨rfl, rfl, rfl, by decide, by decide⟩

/-! ## Frame acquisition -/

/-- C1: in `v4l2CapturerSyncGetFrame`, when the wait reports ready and
`VIDIOC_DQBUF` succeeds (possibly after interrupted attempts) with
`bytesused > frameDataBufferSize`, the caller's buffer and `*frameSize` are
returned unchanged, `VIDIOC_QBUF` is still issued for the buffer that was
dequeued (same index), and the status is `-ENOMEM` when that requeue
succeeds. When the requeue fails the status is the negation of `errno` as the
`LOG` statement after it leaves it. -/
theorem syncGetFrame_buffer_too_small (mem : Int → Nat) (c : V4l2Capturer) (timeoutSec : Int)
    (dst : List Nat) (frameDataBufferSize size : Nat)
    (sel dq q : Reply) (ints1 ints2 rest : List Reply) (tr : List Event) (e : Int)
    (logs : List (Option Int))
    (hsel : 0 < sel.ret)
    (h1 : ∀ x ∈ ints1, x.interrupted = true) (hdq : dq.ret = 0)
    (hsmall : frameDataBufferSize < dq.bytesused)
    (h2 : ∀ x ∈ ints2, x.interrupted = true) (hq : q.interrupted = false) :
    v4l2CapturerSyncGetFrame mem (some c) timeoutSec (some dst) frameDataBufferSize (some size)
        ⟨sel :: (ints1 ++ dq :: (ints2 ++ q :: rest)), tr, e, logs⟩ =
      (.ret ⟨if q.ret = 0 then -ENOMEM else -(afterLog logs q.errno), some dst, some size,
          some (waited c sel)⟩,
        ⟨rest,
          tr ++ [Event.sys (.sysSelect (c.fd + 1) [c.fd] timeoutSec) sel]
            ++ tries (.sysIoctl c.fd .VIDIOC_DQBUF (.buffer emptyBuffer)) ints1 dq
            ++ tries (.sysIoctl c.fd .VIDIOC_QBUF (.buffer (dequeued dq))) ints2 q,
          if q.ret = 0 then q.errno else afterLog logs q.errno,
          if q.ret = 0 then logs else logs.drop 1⟩) := by
  have hs1 : sel.ret ≠ -1 := by omega
  have hs0 : sel.ret ≠ 0 := by omega
  have hd := not_interrupted_of_ret_zero dq hdq
  by_cases hq0 : q.ret = 0
  · simp [v4l2CapturerSyncGetFrame, v4l2CapturerSelectFD, bind_apply, Exec.bind, syscall,
      pure_apply, EPERM, hs1, hs0, xioctl_tries _ _ _ _ _ _ _ _ _ h1 hd,
      xioctl_tries _ _ _ _ _ _ _ _ _ h2 hq, hdq, hsmall, copyOut, Arg.buf, hq0, waited, dequeued,
      emptyBuffer]
  · simp [v4l2CapturerSyncGetFrame, v4l2CapturerSelectFD, bind_apply, Exec.bind, syscall,
      pure_apply, EPERM, hs1, hs0, xioctl_tries _ _ _ _ _ _ _ _ _ h1 hd,
      xioctl_tries _ _ _ _ _ _ _ _ _ h2 hq, hdq, hsmall, copyOut, Arg.buf, hq0, waited, dequeued,
      emptyBuffer, getErrno, LOG]

/-- C4: in `v4l2CapturerRun`, when the wait reports ready, `VIDIOC_DQBUF`
succeeds with index `i < N` and `bytesused = b`, and `VIDIOC_QBUF` succeeds,
the call returns 0 and its log is: the wait, the dequeue, then (when a
callback is registered) exactly one callback invocation with arguments
`(buffers[i].start, b)`, then the requeue of the buffer with the same index
`i`. With no callback registered the log holds no invocation. -/
theorem run_successful_frame (c : V4l2Capturer) (timeoutSec : Int)
    (sel dq q : Reply) (ints1 ints2 rest : List Reply) (tr : List Event) (e : Int)
    (logs : List (Option Int))
    (hsel : 0 < sel.ret)
    (h1 : ∀ x ∈ ints1, x.interrupted = true) (hdq : dq.ret = 0)
    (hidx : dq.index < V4L2_CAPTURER_BUF_COUNT)
    (h2 : ∀ x ∈ ints2, x.interrupted = true) (hq : q.ret = 0) :
    v4l2CapturerRun (some c) timeoutSec
        ⟨sel :: (ints1 ++ dq :: (ints2 ++ q :: rest)), tr, e, logs⟩ =
      (.ret (0, some (waited c sel)),
        ⟨rest,
          tr ++ [Event.sys (.sysSelect (c.fd + 1) [c.fd] timeoutSec) sel]
            ++ tries (.sysIoctl c.fd .VIDIOC_DQBUF (.buffer emptyBuffer)) ints1 dq
            ++ (match c.onFrame with
                | some cb =>
                    [Event.onFrame cb
                      (c.buffers (Fin.mk (n := V4L2_CAPTURER_BUF_COUNT) dq.index hidx).val).start
                      dq.bytesused]
                | none => [])
            ++ tries (.sysIoctl c.fd .VIDIOC_QBUF (.buffer (dequeued dq))) ints2 q,
          q.errno, logs⟩) := by
  have hs1 : sel.ret ≠ -1 := by omega
  have hs0 : sel.ret ≠ 0 := by omega
  have hd := not_interrupted_of_ret_zero dq hdq
  have hqi := not_interrupted_of_ret_zero q hq
  cases hcb : c.onFrame with
  | none =>
      simp [v4l2CapturerRun, v4l2CapturerAsyncGetFrame, v4l2CapturerSelectFD, bind_apply,
        Exec.bind, syscall, pure_apply, EPERM, hs1, hs0, xioctl_tries _ _ _ _ _ _ _ _ _ h1 hd,
        xioctl_tries _ _ _ _ _ _ _ _ _ h2 hqi, hdq, copyOut, Arg.buf, hq, waited, dequeued,
        emptyBuffer, hcb]
  | some cb =>
      simp [v4l2CapturerRun, v4l2CapturerAsyncGetFrame, v4l2CapturerSelectFD, bind_apply,
        Exec.bind, syscall, pure_apply, EPERM, hs1, hs0, xioctl_tries _ _ _ _ _ _ _ _ _ h1 hd,
        xioctl_tries _ _ _ _ _ _ _ _ _ h2 hqi, hdq, copyOut, Arg.buf, hq, waited, dequeued,
        emptyBuffer, hcb, callOnFrame]

/-! ## Configuration -/

/-- The argument of `VIDIOC_S_FMT` for a valid format. -/
theorem config_format_arg (format : Int)
    (hformat : format = V4L2_CAP_FMT_H264 ∨ format = V4L2_CAP_FMT_YUYV) :
    (if format = V4L2_CAP_FMT_H264 then some V4L2_PIX_FMT_H264
      else if format = V4L2_CAP_FMT_YUYV then some V4L2_PIX_FMT_YUYV else none) =
    some (if format = V4L2_CAP_FMT_H264 then V4L2_PIX_FMT_H264 else V4L2_PIX_FMT_YUYV) := by
  rcases hformat with h | h <;> simp [h, V4L2_CAP_FMT_H264, V4L2_CAP_FMT_YUYV]

/-- C6: in `v4l2CapturerConfig` with a valid format, when `VIDIOC_S_FMT`,
`VIDIOC_S_CTRL` and `VIDIOC_REQBUFS` succeed and the device grants fewer than
`N = 2` buffers, the call returns `-ENOMEM`, the session (its `buffers` array
included) is returned unchanged, and the log holds the three requests only:
no `VIDIOC_QUERYBUF` and no `mmap`. -/
theorem config_insufficient_buffers (c : V4l2Capturer) (width height : Nat) (format : Int)
    (bitrate : Nat) (fmt ctl req : Reply) (ints1 ints2 ints3 rest : List Reply)
    (tr : List Event) (e : Int) (logs : List (Option Int))
    (hformat : format = V4L2_CAP_FMT_H264 ∨ format = V4L2_CAP_FMT_YUYV)
    (h1 : ∀ x ∈ ints1, x.interrupted = true) (hfmt : fmt.ret = 0)
    (h2 : ∀ x ∈ ints2, x.interrupted = true) (hctl : ctl.ret = 0)
    (h3 : ∀ x ∈ ints3, x.interrupted = true) (hreq : req.ret = 0)
    (hcount : req.count < V4L2_CAPTURER_BUF_COUNT) :
    v4l2CapturerConfig (some c) width height format bitrate
        ⟨ints1 ++ fmt :: (ints2 ++ ctl :: (ints3 ++ req :: rest)), tr, e, logs⟩ =
      (.ret (-ENOMEM, some c),
        ⟨rest,
          tr ++ tries (.sysIoctl c.fd .VIDIOC_S_FMT
                  (.format V4L2_BUF_TYPE_VIDEO_CAPTURE width height
                    (if format = V4L2_CAP_FMT_H264 then V4L2_PIX_FMT_H264 else V4L2_PIX_FMT_YUYV)
                    V4L2_FIELD_INTERLACED)) ints1 fmt
            ++ tries (.sysIoctl c.fd .VIDIOC_S_CTRL
                  (.control V4L2_CID_MPEG_VIDEO_BITRATE (toS32 bitrate))) ints2 ctl
            ++ tries (.sysIoctl c.fd .VIDIOC_REQBUFS
                  (.requestbuffers V4L2_CAPTURER_BUF_COUNT V4L2_BUF_TYPE_VIDEO_CAPTURE
                    V4L2_MEMORY_MMAP)) ints3 req,
          afterLog logs req.errno, logs.drop 1⟩) := by
  have hf := not_interrupted_of_ret_zero fmt hfmt
  have hc := not_interrupted_of_ret_zero ctl hctl
  have hr := not_interrupted_of_ret_zero req hreq
  unfold v4l2CapturerConfig
  simp only [config_format_arg format hformat]
  simp [bind_apply, Exec.bind, pure_apply, xioctl_tries _ _ _ _ _ _ _ _ _ h1 hf,
    xioctl_tries _ _ _ _ _ _ _ _ _ h2 hc, xioctl_tries _ _ _ _ _ _ _ _ _ h3 hr, hfmt, hctl, hreq,
    copyOut, Arg.count, hcount, LOG]

/-- C2, evaluated on a device that grants three buffers: the mapping loop
runs to `req.count = 3`. The call returns 0 after three `VIDIOC_QUERYBUF` and
three `mmap` calls, and it has stored the third mapping through `buffers[2]`,
past the end of the two-element array. -/
theorem config_three_granted_overruns_buffers :
    v4l2CapturerConfig (some sampleSession) 1920 1080 V4L2_CAP_FMT_H264 2000000
        ⟨[replyOk, replyOk, replyCount 3,
          replyPlacement 8192 0, replyValue 4096,
          replyPlacement 8192 8192, replyValue 12288,
          replyPlacement 4096 16384, replyValue 40960], [], 0, []⟩ =
      (.ret (0, some overrunSession),
        ⟨[],
          [Event.sys (.sysIoctl 3 .VIDIOC_S_FMT (.format 1 1920 1080 V4L2_PIX_FMT_H264 4)) replyOk,
           Event.sys (.sysIoctl 3 .VIDIOC_S_CTRL (.control V4L2_CID_MPEG_VIDEO_BITRATE 2000000))
             replyOk,
           Event.sys (.sysIoctl 3 .VIDIOC_REQBUFS (.requestbuffers 2 1 1)) (replyCount 3),
           Event.sys (.sysIoctl 3 .VIDIOC_QUERYBUF (.buffer ⟨0, 1, 1, 0, 0, 0⟩))
             (replyPlacement 8192 0),
           Event.sys (.sysMmap 8192 3 1 3 0) (replyValue 4096),
           Event.sys (.sysIoctl 3 .VIDIOC_QUERYBUF (.buffer ⟨1, 1, 1, 0, 0, 0⟩))
             (replyPlacement 8192 8192),
           Event.sys (.sysMmap 8192 3 1 3 8192) (replyValue 12288),
           Event.sys (.sysIoctl 3 .VIDIOC_QUERYBUF (.buffer ⟨2, 1, 1, 0, 0, 0⟩))
             (replyPlacement 4096 16384),
           Event.sys (.sysMmap 4096 3 1 3 16384) (replyValue 40960)],
          0, []⟩) ∧
    sampleSession.buffers 2 = ⟨20480, 8192⟩ ∧
    overrunSession.buffers 2 = ⟨40960, 4096⟩ ∧
    ¬ 2 < V4L2_CAPTURER_BUF_COUNT := by
  refine ⟨rfl, rfl, rfl, by decide⟩

/-! ## Opening and closing -/

/-- C3, evaluated on a device that opens as descriptor 3 and reports the
capture capability without the streaming capability: `v4l2CapturerOpen`
returns `NULL` after two system calls, `open` and `VIDIOC_QUERYCAP`; it does
not close descriptor 3. -/
theorem open_rejected_device_keeps_descriptor_open :
    v4l2CapturerOpen (some "/dev/video0") (some freshBlock)
        ⟨[replyValue 3, replyCaps V4L2_CAP_VIDEO_CAPTURE], [], 0, []⟩ =
      (.ret none,
        ⟨[],
          [Event.sys (.sysOpen "/dev/video0" (O_RDWR ||| O_NONBLOCK)) (replyValue 3),
           Event.sys (.sysIoctl 3 .VIDIOC_QUERYCAP (.capability 0))
             (replyCaps V4L2_CAP_VIDEO_CAPTURE)],
          0, []⟩) := by
  rfl

/-- C10 fails as stated: on `openedSession`, which was never configured,
`v4l2CapturerStartStreaming` returns 0 when the device accepts the two
enqueues and the stream-on. -/
theorem startStreaming_unconfigured_can_succeed :
    v4l2CapturerOpen (some "/dev/video0") (some freshBlock)
        ⟨[replyValue 3, replyCaps (V4L2_CAP_VIDEO_CAPTURE ||| V4L2_CAP_STREAMING)], [], 0, []⟩ =
      (.ret (some openedSession),
        ⟨[],
          [Event.sys (.sysOpen "/dev/video0" (O_RDWR ||| O_NONBLOCK)) (replyValue 3),
           Event.sys (.sysIoctl 3 .VIDIOC_QUERYCAP (.capability 0))
             (replyCaps (V4L2_CAP_VIDEO_CAPTURE ||| V4L2_CAP_STREAMING))],
          0, []⟩) ∧
    v4l2CapturerStartStreaming (some openedSession) ⟨[replyOk, replyOk, replyOk], [], 0, []⟩ =
      (.ret 0,
        ⟨[],
          [Event.sys (.sysIoctl 3 .VIDIOC_QBUF (.buffer ⟨0, 1, 1, 0, 0, 0⟩)) replyOk,
           Event.sys (.sysIoctl 3 .VIDIOC_QBUF (.buffer ⟨1, 1, 1, 0, 0, 0⟩)) replyOk,
           Event.sys (.sysIoctl 3 .VIDIOC_STREAMON (.bufType 1)) replyOk],
          0, []⟩) := by
  constructor <;> rfl

/-- C10 as amended: `v4l2CapturerStartStreaming` checks nothing about the
session. On every session, configured or not, it issues `VIDIOC_QBUF` for
index 0, then for index 1, then `VIDIOC_STREAMON`, and stops at the first of
these that the device rejects, returning the negation of `errno` as the `LOG`
statement after the rejected request leaves it; it returns 0 when the device
accepts all three. With a rejected request setting `errno` and `LOG` never
zeroing it, the status is 0 exactly when the device accepts all three. -/
theorem startStreaming_status_from_device (c : V4l2Capturer) (q0 q1 so : Reply)
    (ints0 ints1 ints2 rest : List Reply) (tr : List Event) (e : Int) (logs : List (Option Int))
    (h0 : ∀ x ∈ ints0, x.interrupted = true) (hq0 : q0.interrupted = false)
    (h1 : ∀ x ∈ ints1, x.interrupted = true) (hq1 : q1.interrupted = false)
    (h2 : ∀ x ∈ ints2, x.interrupted = true) (hso : so.interrupted = false)
    (herr : ∀ r ∈ [q0, q1, so], r.ret ≠ 0 → r.errno ≠ 0) (hlogs : KeepsErrnoSet logs) :
    v4l2CapturerStartStreaming (some c)
        ⟨ints0 ++ q0 :: (ints1 ++ q1 :: (ints2 ++ so :: rest)), tr, e, logs⟩ =
      (if q0.ret ≠ 0 then
        (.ret (-(afterLog logs q0.errno)),
          ⟨ints1 ++ q1 :: (ints2 ++ so :: rest),
            tr ++ tries (.sysIoctl c.fd .VIDIOC_QBUF
              (.buffer ⟨0, V4L2_BUF_TYPE_VIDEO_CAPTURE, V4L2_MEMORY_MMAP, 0, 0, 0⟩)) ints0 q0,
            afterLog logs q0.errno, logs.drop 1⟩)
      else if q1.ret ≠ 0 then
        (.ret (-(afterLog logs q1.errno)),
          ⟨ints2 ++ so :: rest,
            tr ++ tries (.sysIoctl c.fd .VIDIOC_QBUF
              (.buffer ⟨0, V4L2_BUF_TYPE_VIDEO_CAPTURE, V4L2_MEMORY_MMAP, 0, 0, 0⟩)) ints0 q0
              ++ tries (.sysIoctl c.fd .VIDIOC_QBUF
              (.buffer ⟨1, V4L2_BUF_TYPE_VIDEO_CAPTURE, V4L2_MEMORY_MMAP, 0, 0, 0⟩)) ints1 q1,
            afterLog logs q1.errno, logs.drop 1⟩)
      else
        (.ret (if so.ret ≠ 0 then -(afterLog logs so.errno) else 0),
          ⟨rest,
            tr ++ tries (.sysIoctl c.fd .VIDIOC_QBUF
              (.buffer ⟨0, V4L2_BUF_TYPE_VIDEO_CAPTURE, V4L2_MEMORY_MMAP, 0, 0, 0⟩)) ints0 q0
              ++ tries (.sysIoctl c.fd .VIDIOC_QBUF
              (.buffer ⟨1, V4L2_BUF_TYPE_VIDEO_CAPTURE, V4L2_MEMORY_MMAP, 0, 0, 0⟩)) ints1 q1
              ++ tries (.sysIoctl c.fd .VIDIOC_STREAMON (.bufType V4L2_BUF_TYPE_VIDEO_CAPTURE)) ints2 so,
            afterLog logs so.errno, logs.drop 1⟩)) ∧
    ((v4l2CapturerStartStreaming (some c)
        ⟨ints0 ++ q0 :: (ints1 ++ q1 :: (ints2 ++ so :: rest)), tr, e, logs⟩).1 = .ret 0 ↔
      q0.ret = 0 ∧ q1.ret = 0 ∧ so.ret = 0) := by
  have hz : ∀ r ∈ [q0, q1, so], r.ret ≠ 0 → -(afterLog logs r.errno) ≠ 0 := fun r hr hne =>
    neg_ne_zero.mpr (afterLog_ne_zero logs hlogs _ (herr r hr hne))
  have heq : v4l2CapturerStartStreaming (some c)
        ⟨ints0 ++ q0 :: (ints1 ++ q1 :: (ints2 ++ so :: rest)), tr, e, logs⟩ =
      (if q0.ret ≠ 0 then
        (.ret (-(afterLog logs q0.errno)),
          ⟨ints1 ++ q1 :: (ints2 ++ so :: rest),
            tr ++ tries (.sysIoctl c.fd .VIDIOC_QBUF
              (.buffer ⟨0, V4L2_BUF_TYPE_VIDEO_CAPTURE, V4L2_MEMORY_MMAP, 0, 0, 0⟩)) ints0 q0,
            afterLog logs q0.errno, logs.drop 1⟩)
      else if q1.ret ≠ 0 then
        (.ret (-(afterLog logs q1.errno)),
          ⟨ints2 ++ so :: rest,
            tr ++ tries (.sysIoctl c.fd .VIDIOC_QBUF
              (.buffer ⟨0, V4L2_BUF_TYPE_VIDEO_CAPTURE, V4L2_MEMORY_MMAP, 0, 0, 0⟩)) ints0 q0
              ++ tries (.sysIoctl c.fd .VIDIOC_QBUF
              (.buffer ⟨1, V4L2_BUF_TYPE_VIDEO_CAPTURE, V4L2_MEMORY_MMAP, 0, 0, 0⟩)) ints1 q1,
            afterLog logs q1.errno, logs.drop 1⟩)
      else
        (.ret (if so.ret ≠ 0 then -(afterLog logs so.errno) else 0),
          ⟨rest,
            tr ++ tries (.sysIoctl c.fd .VIDIOC_QBUF
              (.buffer ⟨0, V4L2_BUF_TYPE_VIDEO_CAPTURE, V4L2_MEMORY_MMAP, 0, 0, 0⟩)) ints0 q0
              ++ tries (.sysIoctl c.fd .VIDIOC_QBUF
              (.buffer ⟨1, V4L2_BUF_TYPE_VIDEO_CAPTURE, V4L2_MEMORY_MMAP, 0, 0, 0⟩)) ints1 q1
              ++ tries (.sysIoctl c.fd .VIDIOC_STREAMON (.bufType V4L2_BUF_TYPE_VIDEO_CAPTURE)) ints2 so,
            afterLog logs so.errno, logs.drop 1⟩)) := by
    by_cases a0 : q0.ret = 0
    · by_cases a1 : q1.ret = 0
      · by_cases a2 : so.ret = 0
        · simp [v4l2CapturerStartStreaming, startLoop, bind_apply, Exec.bind, pure_apply,
            xioctl_tries _ _ _ _ _ _ _ _ _ h0 hq0, xioctl_tries _ _ _ _ _ _ _ _ _ h1 hq1,
            xioctl_tries _ _ _ _ _ _ _ _ _ h2 hso, a0, a1, a2, LOG]
        · simp [v4l2CapturerStartStreaming, startLoop, bind_apply, Exec.bind, pure_apply,
            xioctl_tries _ _ _ _ _ _ _ _ _ h0 hq0, xioctl_tries _ _ _ _ _ _ _ _ _ h1 hq1,
            xioctl_tries _ _ _ _ _ _ _ _ _ h2 hso, a0, a1, a2, logReturnNegErrno, getErrno, LOG]
      · simp [v4l2CapturerStartStreaming, startLoop, bind_apply, Exec.bind, pure_apply,
          xioctl_tries _ _ _ _ _ _ _ _ _ h0 hq0, xioctl_tries _ _ _ _ _ _ _ _ _ h1 hq1, a0, a1,
          getErrno, LOG]
    · simp [v4l2CapturerStartStreaming, startLoop, bind_apply, Exec.bind, pure_apply,
        xioctl_tries _ _ _ _ _ _ _ _ _ h0 hq0, a0, getErrno, LOG]
  refine ⟨heq, ?_⟩
  rw [heq]
  by_cases a0 : q0.ret = 0
  · by_cases a1 : q1.ret = 0
    · by_cases a2 : so.ret = 0
      · simp [a0, a1, a2]
      · have := hz so (by simp) a2
        simp [a0, a1, a2, this]
    · have := hz q1 (by simp) a1
      simp [a0, a1, this]
  · have := hz q0 (by simp) a0
    simp [a0, this]

/-- The run of C1 where a frame of 4096 bytes in buffer 1 meets a caller
buffer of 3 bytes, after one interrupted `VIDIOC_DQBUF`. -/
theorem syncGetFrame_buffer_too_small_witness :
    (0 < replyReady.ret ∧ (replyFrame 1 4096).ret = 0 ∧ 3 < (replyFrame 1 4096).bytesused) ∧
    v4l2CapturerSyncGetFrame zeroMem (some sampleSession) 2 (some [7, 7, 7]) 3 (some 0)
        ⟨replyReady :: ([replyFail EINTR] ++ replyFrame 1 4096 :: ([] ++ replyOk :: [])), [], 0,
          [some EBADF]⟩ =
      (.ret ⟨if replyOk.ret = 0 then -ENOMEM else -(afterLog [some EBADF] replyOk.errno),
          some [7, 7, 7], some 0, some (waited sampleSession replyReady)⟩,
        ⟨[],
          [] ++ [Event.sys (.sysSelect (sampleSession.fd + 1) [sampleSession.fd] 2) replyReady]
            ++ tries (.sysIoctl sampleSession.fd .VIDIOC_DQBUF (.buffer emptyBuffer))
                [replyFail EINTR] (replyFrame 1 4096)
            ++ tries (.sysIoctl sampleSession.fd .VIDIOC_QBUF
                (.buffer (dequeued (replyFrame 1 4096)))) [] replyOk,
          if replyOk.ret = 0 then replyOk.errno else afterLog [some EBADF] replyOk.errno,
          if replyOk.ret = 0 then [some EBADF] else [some EBADF].drop 1⟩) :=
  ⟨by decide,
    syncGetFrame_buffer_too_small zeroMem sampleSession 2 [7, 7, 7] 3 0 replyReady
      (replyFrame 1 4096) replyOk [replyFail EINTR] [] [] [] 0 [some EBADF] (by decide)
      (by decide) rfl (by decide) (by decide) (by decide)⟩

/-- The scenario of C4: one ready frame of 4096 bytes in buffer 0, callback
registered. -/
theorem run_successful_frame_witness :
    (0 < replyReady.ret ∧ (replyFrame 0 4096).ret = 0 ∧ replyOk.ret = 0) ∧
    v4l2CapturerRun (some sampleSession) 2
        ⟨replyReady :: ([] ++ replyFrame 0 4096 :: ([] ++ replyOk :: [])), [], 0, []⟩ =
      (.ret (0, some (waited sampleSession replyReady)),
        ⟨[],
          [] ++ [Event.sys (.sysSelect (sampleSession.fd + 1) [sampleSession.fd] 2) replyReady]
            ++ tries (.sysIoctl sampleSession.fd .VIDIOC_DQBUF (.buffer emptyBuffer)) []
                (replyFrame 0 4096)
            ++ (match sampleSession.onFrame with
                | some cb =>
                    [Event.onFrame cb
                      (sampleSession.buffers (Fin.mk (n := V4L2_CAPTURER_BUF_COUNT)
                        (replyFrame 0 4096).index (by decide)).val).start
                      (replyFrame 0 4096).bytesused]
                | none => [])
            ++ tries (.sysIoctl sampleSession.fd .VIDIOC_QBUF
                (.buffer (dequeued (replyFrame 0 4096)))) [] replyOk,
          replyOk.errno, []⟩) :=
  ⟨by decide,
    run_successful_frame sampleSession 2 replyReady (replyFrame 0 4096) replyOk [] [] [] [] 0 []
      (by decide) (by decide) rfl (by decide) (by decide) rfl⟩

/-- The run of C6 where the device grants one buffer. -/
theorem config_insufficient_buffers_witness :
    ((1 : Int) = V4L2_CAP_FMT_YUYV ∧ (replyCount 1).ret = 0 ∧
      (replyCount 1).count < V4L2_CAPTURER_BUF_COUNT) ∧
    v4l2CapturerConfig (some sampleSession) 1920 1080 1 2000000
        ⟨[] ++ replyOk :: ([] ++ replyOk :: ([] ++ replyCount 1 :: [])), [], 0, []⟩ =
      (.ret (-ENOMEM, some sampleSession),
        ⟨[],
          [] ++ tries (.sysIoctl sampleSession.fd .VIDIOC_S_FMT
                  (.format V4L2_BUF_TYPE_VIDEO_CAPTURE 1920 1080
                    (if (1 : Int) = V4L2_CAP_FMT_H264 then V4L2_PIX_FMT_H264
                      else V4L2_PIX_FMT_YUYV)
                    V4L2_FIELD_INTERLACED)) [] replyOk
            ++ tries (.sysIoctl sampleSession.fd .VIDIOC_S_CTRL
                  (.control V4L2_CID_MPEG_VIDEO_BITRATE (toS32 2000000))) [] replyOk
            ++ tries (.sysIoctl sampleSession.fd .VIDIOC_REQBUFS
                  (.requestbuffers V4L2_CAPTURER_BUF_COUNT V4L2_BUF_TYPE_VIDEO_CAPTURE
                    V4L2_MEMORY_MMAP)) [] (replyCount 1),
          afterLog [] (replyCount 1).errno, ([] : List (Option Int)).drop 1⟩) :=
  ⟨by decide,
    config_insufficient_buffers sampleSession 1920 1080 1 2000000 replyOk replyOk
      (replyCount 1) [] [] [] [] [] 0 [] (Or.inr rfl) (by decide) rfl (by decide) rfl
      (by decide) rfl (by decide)⟩

/-- The run of C10 on the never-configured `openedSession` in which the
device rejects the first enqueue with `EINVAL` and the `printf` of `LOG`
fails with `EBADF`: the enqueue of index 0 is the only request and the status
is `-EBADF`. -/
theorem startStreaming_status_from_device_witness :
    ((replyFail EINVAL).interrupted = false ∧ replyOk.interrupted = false ∧
      (∀ r ∈ [replyFail EINVAL, replyOk, replyOk], r.ret ≠ 0 → r.errno ≠ 0) ∧
      KeepsErrnoSet [some EBADF]) ∧
    (v4l2CapturerStartStreaming (some openedSession)
        ⟨[] ++ replyFail EINVAL :: ([] ++ replyOk :: ([] ++ replyOk :: [])), [], 0,
          [some EBADF]⟩ =
      (.ret (-EBADF),
        ⟨[] ++ replyOk :: ([] ++ replyOk :: []),
          [Event.sys (.sysIoctl 3 .VIDIOC_QBUF (.buffer ⟨0, 1, 1, 0, 0, 0⟩)) (replyFail EINVAL)],
          EBADF, []⟩)) ∧
    ((v4l2CapturerStartStreaming (some openedSession)
        ⟨[] ++ replyFail EINVAL :: ([] ++ replyOk :: ([] ++ replyOk :: [])), [], 0,
          [some EBADF]⟩).1 = .ret 0 ↔
      (replyFail EINVAL).ret = 0 ∧ replyOk.ret = 0 ∧ replyOk.ret = 0) :=
  ⟨⟨by decide, by decide, by decide, by simp [KeepsErrnoSet, EBADF]⟩,
    startStreaming_status_from_device openedSession (replyFail EINVAL) replyOk replyOk [] [] [] []
      [] 0 [some EBADF] (by decide) (by decide) (by decide) (by decide) (by decide) (by decide)
      (by decide) (by simp [KeepsErrnoSet, EBADF])⟩

end V4l2
